import Mathlib

/-!
Shallow embedding of the plotting pipeline of `src/Surface_Plot_3D.py`
(class `PlotApp`, method `plot_data`, lines 144-188).

After a data file has been selected, `plot_data`
  1. loads the file with `pd.read_csv` into a rectangular table `data`,
  2. extracts the columns `data['X'].values`, `data['Y'].values`,
     `data['Z'].values` (a missing column raises `KeyError`, which the
     single broad `except Exception` handler at line 187 turns into one
     generic critical message box),
  3. warns and returns if the three column lengths differ (lines 157-159),
  4. computes `grid_size = int(len(x) ** 0.5)` and warns and returns if
     `grid_size ** 2 != len(x)` (lines 162-165),
  5. reshapes each of the three flat columns into a `grid_size x grid_size`
     array, row-major (lines 167-169), and
  6. hands the three reshaped arrays unchanged to `go.Surface` / `pio.show`.

There is no deduplication step, no interpolation call, no resolution
parameter and no convex-hull computation anywhere in the source file.

Real-valued cell contents are modelled as rationals; `int(len(x) ** 0.5)`
is modelled as the integer square root `intSqrt`, proved equal to
`Nat.sqrt` below (for every realistic row count the Python float
expression computes exactly the integer square root).
-/

namespace SurfacePlot

/-- A successfully loaded table, as `pd.read_csv` returns it: a list of
column names and a list of rows. A pandas frame is rectangular, so every
row has one cell per column name; out-of-range access is padded with 0
below, which no well-formed frame ever exercises. -/
structure DataFrame where
  names : List String
  rows : List (List ℚ)
deriving Repr, DecidableEq

/-- Column selection `data[c].values`: locate the column label, then read
that cell out of every row. `none` models the `KeyError` raised when the
label is absent. -/
def getCol (df : DataFrame) (c : String) : Option (List ℚ) :=
  match df.names.indexOf? c with
  | none => none
  | some idx => some (df.rows.map (fun r => r.getD idx 0))

/-- Largest `m ≤ c` with `m * m ≤ n` (and `0` when none exists). This is
the search loop behind `intSqrt` below; it recurses structurally on the
candidate bound so that concrete instances reduce inside the kernel. -/
def intSqrtGo (n : Nat) : Nat → Nat
  | 0 => 0
  | c + 1 => if (c + 1) * (c + 1) ≤ n then c + 1 else intSqrtGo n c

/-- The integer square root, modelling `int(len(x) ** 0.5)` at line 162 of
the source (for every realistic row count the Python float expression
computes exactly the integer square root of `len(x)`). The theorem
`intSqrt_eq_sqrt` below shows it agrees with `Nat.sqrt` everywhere. -/
def intSqrt (n : Nat) : Nat := intSqrtGo n n

/-- Row-major numpy `v.reshape((k, k))`: entry `(i, j)` of the result is
`v[i * k + j]`. The caller guards `v.length = k * k`, so the padding
default is never read. -/
def reshape (v : List ℚ) (k : Nat) : List (List ℚ) :=
  (List.range k).map (fun i => (List.range k).map (fun j => v.getD (i * k + j) 0))

/-- Auxiliary form of `reshape` with the row count split off, for
induction on the rows. -/
def rowsFrom (v : List ℚ) (k r : Nat) : List (List ℚ) :=
  (List.range r).map (fun i => (List.range k).map (fun j => v.getD (i * k + j) 0))

/-- Outcome of one `plot_data` invocation once a file is loaded, one
constructor per exit of the source, lines 149-188.

`exceptionCaught key` is the single broad handler at line 187: any
exception inside the `try` block ends in the same generic critical
message box (text `An error occurred while plotting data: ...`); the only
exception the embedded fragment can raise is the `KeyError` for a
missing column, whose key is recorded here. `lengthMismatch` and
`notSquareGrid` are the two warning returns at lines 158 and 164, and
`plotted` carries the three reshaped arrays given to `go.Surface`. -/
inductive PlotResult where
  | exceptionCaught (key : String)
  | lengthMismatch
  | notSquareGrid
  | plotted (gx gy gz : List (List ℚ))
deriving Repr, DecidableEq

/-- The body of `plot_data` after a file has been selected: lines 149-185
of the source, with the rendering call dropped (it consumes the arrays
unchanged). -/
def plotData (df : DataFrame) : PlotResult :=
  match getCol df "X" with
  | none => .exceptionCaught "X"
  | some x =>
    match getCol df "Y" with
    | none => .exceptionCaught "Y"
    | some y =>
      match getCol df "Z" with
      | none => .exceptionCaught "Z"
      | some z =>
        if x.length ≠ y.length ∨ y.length ≠ z.length then .lengthMismatch
        else
          let gridSize := intSqrt x.length
          if gridSize * gridSize ≠ x.length then .notSquareGrid
          else .plotted (reshape x gridSize) (reshape y gridSize) (reshape z gridSize)

/-- Locations `(x_a, y_a)` of the input samples, as points of the real
plane (the spec speaks of their convex hull). -/
def sampleLocations (x y : List ℚ) : Set (ℝ × ℝ) :=
  {p | ∃ a, a < x.length ∧ p = ((x.getD a 0 : ℝ), (y.getD a 0 : ℝ))}

/-- A `k x k` shape predicate for the reshaped arrays. -/
def isSquareGrid (g : List (List ℚ)) (k : Nat) : Prop :=
  g.length = k ∧ ∀ r ∈ g, r.length = k

/-- How many grid nodes carry the location `(a, b)`: the grids of x and y
coordinates are flattened, zipped into coordinate pairs and the pairs
equal to `(a, b)` are counted. -/
def countAtLocation (gx gy : List (List ℚ)) (a b : ℚ) : Nat :=
  ((gx.flatten.zip gy.flatten).filter (fun p => decide (p.1 = a) && decide (p.2 = b))).length

/-- The example input of the spec (and of the in-app format dialog): nine
rows, no duplicate locations, a 3 x 3 grid of samples. -/
def ex9 : DataFrame :=
  ⟨["X", "Y", "Z"],
    [[0, 0, 0], [0, 1, 1], [0, 2, 4], [1, 0, 1], [1, 1, 2], [1, 2, 5],
      [2, 0, 4], [2, 1, 5], [2, 2, 6]]⟩

/-- The same nine samples with an extra unrelated column appended, for the
determinism theorem: the X, Y, Z columns coincide with those of `ex9`. -/
def ex9w : DataFrame :=
  ⟨["X", "Y", "Z", "W"],
    [[0, 0, 0, 7], [0, 1, 1, 7], [0, 2, 4, 7], [1, 0, 1, 7], [1, 1, 2, 7],
      [1, 2, 5, 7], [2, 0, 4, 7], [2, 1, 5, 7], [2, 2, 6, 7]]⟩

/-- Four samples of which the first two sit at the same location `(0, 0)`
with distinct z values 2 and 4 (mean 3), as in the duplicate-averaging
scenario of the spec. -/
def dup4 : DataFrame := ⟨["X", "Y", "Z"], [[0, 0, 2], [0, 0, 4], [1, 0, 1], [1, 1, 3]]⟩

/-- Four samples that all share the x value 0: the degenerate domain of
the spec (`xMin == xMax`). -/
def sameX4 : DataFrame := ⟨["X", "Y", "Z"], [[0, 0, 1], [0, 1, 2], [0, 2, 3], [0, 3, 4]]⟩

/-- A table lacking the required column Z. -/
def noZ : DataFrame := ⟨["X", "Y"], [[0, 0]]⟩

/-- A table lacking the required column X. -/
def noX : DataFrame := ⟨["Y", "Z"], [[0, 0]]⟩

/-- A table with the three required columns but zero rows. -/
def emptyXYZ : DataFrame := ⟨["X", "Y", "Z"], []⟩

/-- A table with the three required columns and two rows; 2 is not a
perfect square. -/
def twoRows : DataFrame := ⟨["X", "Y", "Z"], [[0, 0, 0], [1, 1, 1]]⟩

/-- The x coordinate grid `plot_data` builds from `ex9`. -/
def gx9 : List (List ℚ) := [[0, 0, 0], [1, 1, 1], [2, 2, 2]]

/-- The y coordinate grid `plot_data` builds from `ex9`. -/
def gy9 : List (List ℚ) := [[0, 1, 2], [0, 1, 2], [0, 1, 2]]

/-- The z value grid `plot_data` builds from `ex9`. -/
def gz9 : List (List ℚ) := [[0, 1, 4], [1, 2, 5], [4, 5, 6]]

/-- The X column of `ex9`. -/
def xcol9 : List ℚ := [0, 0, 0, 1, 1, 1, 2, 2, 2]

/-- The Y column of `ex9`. -/
def ycol9 : List ℚ := [0, 1, 2, 0, 1, 2, 0, 1, 2]

/-- The Z column of `ex9`. -/
def zcol9 : List ℚ := [0, 1, 4, 1, 2, 5, 4, 5, 6]

/-- The X column of `dup4`. -/
def dupXcol : List ℚ := [0, 0, 1, 1]

/-- The Y column of `dup4`. -/
def dupYcol : List ℚ := [0, 0, 0, 1]

/-- The Z column of `dup4`. -/
def dupZcol : List ℚ := [2, 4, 1, 3]

/-- The grids `plot_data` builds from `dup4`: both duplicate samples
survive as separate grid nodes. -/
def dupGx : List (List ℚ) := [[0, 0], [1, 1]]

/-- The y grid built from `dup4`. -/
def dupGy : List (List ℚ) := [[0, 0], [0, 1]]

/-- The z grid built from `dup4`: the two z observations 2 and 4 at the
location `(0, 0)` are both present, unaveraged. -/
def dupGz : List (List ℚ) := [[2, 4], [1, 3]]

/-- The search loop never exceeds its bound. -/
theorem intSqrtGo_le (n : Nat) : ∀ c, intSqrtGo n c ≤ c := by
  intro c
  induction c with
  | zero => simp [intSqrtGo]
  | succ m ih =>
    unfold intSqrtGo
    split
    · exact Nat.le_refl _
    · exact Nat.le_trans ih (Nat.le_succ m)

/-- The square of the search result never exceeds `n`. -/
theorem intSqrtGo_sq_le (n : Nat) : ∀ c, intSqrtGo n c * intSqrtGo n c ≤ n := by
  intro c
  induction c with
  | zero => simp [intSqrtGo]
  | succ m ih =>
    unfold intSqrtGo
    split
    · assumption
    · exact ih

/-- The search result is the largest candidate within the bound whose
square stays at most `n`. -/
theorem le_intSqrtGo (n : Nat) :
    ∀ c m, m ≤ c → m * m ≤ n → m ≤ intSqrtGo n c := by
  intro c
  induction c with
  | zero => intro m hm _; simpa [intSqrtGo] using hm
  | succ d ih =>
    intro m hm hsq
    unfold intSqrtGo
    split
    · exact hm
    · rename_i hno
      rcases Nat.lt_or_ge m (d + 1) with hlt | hge
      · exact ih m (Nat.lt_succ_iff.mp hlt) hsq
      · have hm1 : m = d + 1 := Nat.le_antisymm hm hge
        exact absurd (hm1 ▸ hsq) hno

/-- The modelled `int(len(x) ** 0.5)` is exactly the integer square root
`Nat.sqrt`. -/
theorem intSqrt_eq_sqrt (n : Nat) : intSqrt n = Nat.sqrt n := by
  apply Nat.le_antisymm
  · exact Nat.le_sqrt.mpr (intSqrtGo_sq_le n n)
  · exact le_intSqrtGo n n (Nat.sqrt n) (Nat.sqrt_le_self n) (Nat.sqrt_le n)

/-- On a perfect square the modelled grid size recovers the side. -/
theorem intSqrt_mul_self (k : Nat) : intSqrt (k * k) = k := by
  rw [intSqrt_eq_sqrt]
  exact Nat.sqrt_eq k

/-- Every extracted column has exactly one cell per row of the frame, so
all columns of one frame have the same length. -/
theorem getCol_length (df : DataFrame) (c : String) (l : List ℚ)
    (h : getCol df c = some l) : l.length = df.rows.length := by
  unfold getCol at h
  cases hidx : df.names.indexOf? c with
  | none => rw [hidx] at h; exact absurd h (by simp)
  | some idx =>
    rw [hidx] at h
    simp only [Option.some.injEq] at h
    rw [← h, List.length_map]

/-- Reshaping yields `k` rows. -/
theorem reshape_length (v : List ℚ) (k : Nat) : (reshape v k).length = k := by
  simp [reshape]

/-- Every row of a reshaped array has `k` entries. -/
theorem reshape_row_length (v : List ℚ) (k : Nat) (r : List ℚ)
    (hr : r ∈ reshape v k) : r.length = k := by
  unfold reshape at hr
  rcases List.mem_map.mp hr with ⟨i, _, hi⟩
  simp [← hi]

/-- Entry `(i, j)` of the reshaped array is entry `i * k + j` of the flat
vector, exactly as numpy row-major reshape lays it out. -/
theorem reshape_entry (v : List ℚ) (k i j : Nat) (hi : i < k) (hj : j < k) :
    ((reshape v k).getD i []).getD j 0 = v.getD (i * k + j) 0 := by
  unfold reshape
  have h1 : i < ((List.range k).map
      (fun i => (List.range k).map (fun j => v.getD (i * k + j) 0))).length := by
    simpa using hi
  rw [List.getD_eq_getElem _ _ h1]
  simp only [List.getElem_map, List.getElem_range]
  have h2 : j < ((List.range k).map (fun j => v.getD (i * k + j) 0)).length := by
    simpa using hj
  rw [List.getD_eq_getElem _ _ h2]
  simp only [List.getElem_map, List.getElem_range]

/-- Reading a dropped list with a default shifts the index. -/
theorem getD_drop_eq (v : List ℚ) (k m : Nat) :
    (v.drop k).getD m 0 = v.getD (k + m) 0 := by
  simp [List.getD_eq_getElem?_getD, List.getElem?_drop]

/-- The first `k` default-indexed reads of a list of length at least `k`
are its `k`-element head. -/
theorem range_map_getD_eq_take (v : List ℚ) (k : Nat) (h : k ≤ v.length) :
    (List.range k).map (fun j => v.getD j 0) = v.take k := by
  apply List.ext_getElem
  · simp [Nat.min_eq_left h]
  · intro n h1 h2
    simp only [List.getElem_map, List.getElem_range, List.getElem_take]
    rw [List.getD_eq_getElem]

theorem rowsFrom_flatten (k : Nat) :
    ∀ (r : Nat) (v : List ℚ), v.length = r * k → (rowsFrom v k r).flatten = v := by
  intro r
  induction r with
  | zero =>
    intro v hv
    have : v = [] := List.eq_nil_of_length_eq_zero (by simpa using hv)
    simp [this, rowsFrom]
  | succ n ih =>
    intro v hv
    have hk : k ≤ v.length := by rw [hv, Nat.succ_mul]; exact Nat.le_add_left k (n * k)
    have hlen : (v.drop k).length = n * k := by
      rw [List.length_drop, hv, Nat.succ_mul, Nat.add_sub_cancel]
    have hsplit : rowsFrom v k (n + 1) = v.take k :: rowsFrom (v.drop k) k n := by
      unfold rowsFrom
      rw [List.range_succ_eq_map, List.map_cons, List.map_map]
      congr 1
      · simpa using range_map_getD_eq_take v k hk
      · apply List.map_congr_left
        intro a _
        apply List.map_congr_left
        intro b _
        rw [getD_drop_eq]
        congr 1
        rw [Nat.succ_mul]
        ring
    rw [hsplit, List.flatten_cons, ih (v.drop k) hlen, List.take_append_drop]

/-- Flattening a row-major `k x k` reshape of a length-`k * k` vector
recovers the vector. -/
theorem reshape_flatten (v : List ℚ) (k : Nat) (h : v.length = k * k) :
    (reshape v k).flatten = v :=
  rowsFrom_flatten k k v h

/-- Inversion of a successful run of `plot_data`: the three columns were
present, their lengths agreed, the row count was the perfect square of
`grid_size = Nat.sqrt` of it, and the three arrays handed to the surface
renderer are the row-major reshapes of the three columns. -/
theorem plotted_inv (df : DataFrame) (gx gy gz : List (List ℚ))
    (h : plotData df = .plotted gx gy gz) :
    ∃ x y z, getCol df "X" = some x ∧ getCol df "Y" = some y ∧ getCol df "Z" = some z ∧
      x.length = y.length ∧ y.length = z.length ∧
      intSqrt x.length * intSqrt x.length = x.length ∧
      gx = reshape x (intSqrt x.length) ∧
      gy = reshape y (intSqrt x.length) ∧
      gz = reshape z (intSqrt x.length) := by
  unfold plotData at h
  split at h
  · simp at h
  · rename_i x hx
    split at h
    · simp at h
    · rename_i y hy
      split at h
      · simp at h
      · rename_i z hz
        split at h
        · simp at h
        · rename_i hlen
          push_neg at hlen
          dsimp only [] at h
          split at h
          · simp at h
          · rename_i hsq
            push_neg at hsq
            rw [PlotResult.plotted.injEq] at h
            exact ⟨x, y, z, hx, hy, hz, hlen.1, hlen.2, hsq,
              h.1.symm, h.2.1.symm, h.2.2.symm⟩

/-- Claim C1 is false of the code: the pipeline applied to `dup4`, whose
first two samples share the location `(0, 0)` with z values 2 and 4,
keeps both observations as separate grid nodes — the location `(0, 0)`
occurs twice in the plotted grid, carrying 2 and 4, and no node carries
their mean 3. -/
theorem C1_counterexample :
    plotData dup4 = .plotted dupGx dupGy dupGz ∧
    countAtLocation dupGx dupGy 0 0 = 2 ∧
    (dupGz.getD 0 []).getD 0 0 = 2 ∧ (dupGz.getD 0 []).getD 1 0 = 4 ∧
    ((2 : ℚ) + 4) / 2 = 3 ∧ (2 : ℚ) ≠ 3 ∧ (4 : ℚ) ≠ 3 := by
  refine ⟨rfl, by decide, rfl, rfl, by norm_num, by norm_num, by norm_num⟩

/-- Claim C1 (amended): `plot_data` has no duplicate-resolution step. Any
two distinct rows `a` and `b` of an accepted table, in particular two
rows sharing the same `(x, y)` location, land on two distinct grid nodes
`(a / k, a % k)` and `(b / k, b % k)`, each keeping its own x, y and z
values unchanged; no averaging takes place. -/
theorem C1_duplicates_not_merged (df : DataFrame) (gx gy gz : List (List ℚ))
    (x y z : List ℚ) (k : Nat)
    (h : plotData df = .plotted gx gy gz)
    (hx : getCol df "X" = some x) (hy : getCol df "Y" = some y)
    (hz : getCol df "Z" = some z)
    (hk : k * k = x.length)
    (a b : Nat) (ha : a < x.length) (hb : b < x.length) (hab : a ≠ b)
    (hlocx : x.getD a 0 = x.getD b 0) (hlocy : y.getD a 0 = y.getD b 0) :
    (a / k, a % k) ≠ (b / k, b % k) ∧
    (gx.getD (a / k) []).getD (a % k) 0 = x.getD a 0 ∧
    (gy.getD (a / k) []).getD (a % k) 0 = y.getD a 0 ∧
    (gz.getD (a / k) []).getD (a % k) 0 = z.getD a 0 ∧
    (gx.getD (b / k) []).getD (b % k) 0 = x.getD b 0 ∧
    (gy.getD (b / k) []).getD (b % k) 0 = y.getD b 0 ∧
    (gz.getD (b / k) []).getD (b % k) 0 = z.getD b 0 := by
  obtain ⟨x2, y2, z2, hx2, hy2, hz2, hxy, hyz, hsq, hgx, hgy, hgz⟩ := plotted_inv df gx gy gz h
  have hxx : x2 = x := Option.some.inj (hx2.symm.trans hx)
  have hyy : y2 = y := Option.some.inj (hy2.symm.trans hy)
  have hzz : z2 = z := Option.some.inj (hz2.symm.trans hz)
  rw [hxx] at hsq hgx hgy hgz
  rw [hyy] at hgy
  rw [hzz] at hgz
  have hks : intSqrt x.length = k := by rw [← hk]; exact intSqrt_mul_self k
  have hkpos : 0 < k := by
    rcases Nat.eq_zero_or_pos k with h0 | h0
    · exfalso; rw [h0] at hk; simp at hk; omega
    · exact h0
  have hda : a / k < k := (Nat.div_lt_iff_lt_mul hkpos).mpr (by rw [hk]; exact ha)
  have hdb : b / k < k := (Nat.div_lt_iff_lt_mul hkpos).mpr (by rw [hk]; exact hb)
  have hma : a % k < k := Nat.mod_lt a hkpos
  have hmb : b % k < k := Nat.mod_lt b hkpos
  have hidxa : a / k * k + a % k = a := by rw [Nat.mul_comm]; exact Nat.div_add_mod a k
  have hidxb : b / k * k + b % k = b := by rw [Nat.mul_comm]; exact Nat.div_add_mod b k
  rw [hgx, hgy, hgz, hks]
  refine ⟨?_, ?_, ?_, ?_, ?_, ?_, ?_⟩
  · intro heq
    rw [Prod.mk.injEq] at heq
    apply hab
    calc a = a / k * k + a % k := hidxa.symm
      _ = b / k * k + b % k := by rw [heq.1, heq.2]
      _ = b := hidxb
  · rw [reshape_entry x k _ _ hda hma, hidxa]
  · rw [reshape_entry y k _ _ hda hma, hidxa]
  · rw [reshape_entry z k _ _ hda hma, hidxa]
  · rw [reshape_entry x k _ _ hdb hmb, hidxb]
  · rw [reshape_entry y k _ _ hdb hmb, hidxb]
  · rw [reshape_entry z k _ _ hdb hmb, hidxb]

/-- Witness for claim C1 (amended) at the concrete table `dup4`: rows 0
and 1 share the location `(0, 0)` and survive as the two distinct grid
nodes `(0, 0)` and `(0, 1)` with their original values. -/
theorem C1_witness :
    (((0 : Nat) / 2, (0 : Nat) % 2) ≠ ((1 : Nat) / 2, (1 : Nat) % 2)) ∧
    (dupGx.getD (0 / 2) []).getD (0 % 2) 0 = dupXcol.getD 0 0 ∧
    (dupGy.getD (0 / 2) []).getD (0 % 2) 0 = dupYcol.getD 0 0 ∧
    (dupGz.getD (0 / 2) []).getD (0 % 2) 0 = dupZcol.getD 0 0 ∧
    (dupGx.getD (1 / 2) []).getD (1 % 2) 0 = dupXcol.getD 1 0 ∧
    (dupGy.getD (1 / 2) []).getD (1 % 2) 0 = dupYcol.getD 1 0 ∧
    (dupGz.getD (1 / 2) []).getD (1 % 2) 0 = dupZcol.getD 1 0 :=
  C1_duplicates_not_merged dup4 dupGx dupGy dupGz dupXcol dupYcol dupZcol 2
    rfl rfl rfl rfl rfl 0 1 (by decide) (by decide) (by decide) (by decide) (by decide)

/-- Claim C2 is false of the code: there is no resolution parameter, and
the grid shape depends on the number of samples. On the valid 9-row
input `ex9` the three arrays are 3 x 3, not 100 x 100. -/
theorem C2_counterexample :
    plotData ex9 = .plotted gx9 gy9 gz9 ∧ ex9.rows.length = 9 ∧
    gx9.length = 3 ∧ gy9.length = 3 ∧ gz9.length = 3 ∧ gx9.length ≠ 100 := by
  refine ⟨rfl, rfl, rfl, rfl, rfl, ?_⟩
  decide

/-- Claim C2 (amended): whenever `plot_data` builds a grid, the three
arrays are `k x k` where `k = intSqrt n` and `k * k = n` is the number of
input samples — the shape is determined by the sample count, not by any
fixed resolution. -/
theorem C2_grid_shape_from_count (df : DataFrame) (gx gy gz : List (List ℚ))
    (h : plotData df = .plotted gx gy gz) :
    ∃ x, getCol df "X" = some x ∧
      intSqrt x.length * intSqrt x.length = x.length ∧
      isSquareGrid gx (intSqrt x.length) ∧ isSquareGrid gy (intSqrt x.length) ∧
      isSquareGrid gz (intSqrt x.length) := by
  obtain ⟨x, y, z, hx, hy, hz, hxy, hyz, hsq, hgx, hgy, hgz⟩ := plotted_inv df gx gy gz h
  subst hgx hgy hgz
  exact ⟨x, hx, hsq,
    ⟨reshape_length _ _, fun r hr => reshape_row_length _ _ r hr⟩,
    ⟨reshape_length _ _, fun r hr => reshape_row_length _ _ r hr⟩,
    ⟨reshape_length _ _, fun r hr => reshape_row_length _ _ r hr⟩⟩

/-- Witness for claim C2 (amended) at the concrete table `ex9`. -/
theorem C2_witness :
    ∃ x, getCol ex9 "X" = some x ∧
      intSqrt x.length * intSqrt x.length = x.length ∧
      isSquareGrid gx9 (intSqrt x.length) ∧ isSquareGrid gy9 (intSqrt x.length) ∧
      isSquareGrid gz9 (intSqrt x.length) :=
  C2_grid_shape_from_count ex9 gx9 gy9 gz9 rfl

/-- Claim C3: every grid node location lies in the convex hull of the
input sample locations, because each node is itself one of the input
sample locations; hence no grid node lies strictly outside the hull (the
claimed conditional about such nodes holds vacuously, there being no
undefined-marker mechanism to exercise) and every numeric grid value
sits at a location inside the hull. The code never computes interpolated
values: the z grid holds exactly the input z values (claim C8). -/
theorem C3_grid_nodes_inside_hull (df : DataFrame) (gx gy gz : List (List ℚ))
    (x y : List ℚ)
    (h : plotData df = .plotted gx gy gz)
    (hx : getCol df "X" = some x) (hy : getCol df "Y" = some y)
    (i j : Nat) (hi : i < gx.length) (hj : j < gx.length) :
    (((gx.getD i []).getD j 0 : ℝ), ((gy.getD i []).getD j 0 : ℝ))
      ∈ convexHull ℝ (sampleLocations x y) := by
  obtain ⟨x2, y2, z2, hx2, hy2, hz2, hxy, hyz, hsq, hgx, hgy, hgz⟩ := plotted_inv df gx gy gz h
  have hxx : x2 = x := Option.some.inj (hx2.symm.trans hx)
  have hyy : y2 = y := Option.some.inj (hy2.symm.trans hy)
  rw [hxx] at hsq hgx hgy
  rw [hyy] at hgy
  have hglen : gx.length = intSqrt x.length := by rw [hgx]; exact reshape_length _ _
  rw [hglen] at hi hj
  have hbound : i * intSqrt x.length + j < x.length := by
    have h1 : i * intSqrt x.length + j < (i + 1) * intSqrt x.length := by
      rw [Nat.succ_mul]; omega
    have h2 : (i + 1) * intSqrt x.length ≤ intSqrt x.length * intSqrt x.length :=
      Nat.mul_le_mul_right _ hi
    exact Nat.lt_of_lt_of_le h1 (Nat.le_trans h2 (Nat.le_of_eq hsq))
  rw [hgx, hgy, reshape_entry x _ i j hi hj, reshape_entry y _ i j hi hj]
  exact subset_convexHull ℝ (sampleLocations x y) ⟨i * intSqrt x.length + j, hbound, rfl⟩

/-- Witness for claim C3 at the corner node `(0, 0)` of the grid built
from `ex9`. -/
theorem C3_witness :
    (((gx9.getD 0 []).getD 0 0 : ℝ), ((gy9.getD 0 []).getD 0 0 : ℝ))
      ∈ convexHull ℝ (sampleLocations xcol9 ycol9) :=
  C3_grid_nodes_inside_hull ex9 gx9 gy9 gz9 xcol9 ycol9 rfl rfl rfl 0 0
    (by decide) (by decide)

/-- Claim C4 is false of the code: `sameX4` has all four x values equal
to 0 (the degenerate domain of the spec, `xMin == xMax`), yet `plot_data`
raises no error and produces the full reshaped grid. -/
theorem C4_counterexample :
    getCol sameX4 "X" = some [0, 0, 0, 0] ∧
    (∀ e ∈ [(0 : ℚ), 0, 0, 0], e = 0) ∧
    plotData sameX4 = .plotted [[0, 0], [0, 0]] [[0, 1], [2, 3]] [[1, 2], [3, 4]] :=
  ⟨rfl, by decide, rfl⟩

/-- Claim C4 (amended): `plot_data` performs no degenerate-domain check.
A table whose x column is constant is plotted like any other as soon as
the three columns exist and the row count is a perfect square; no error
kind for degenerate domains exists in the code. -/
theorem C4_no_degenerate_domain_gate (df : DataFrame) (x y z : List ℚ)
    (hx : getCol df "X" = some x) (hy : getCol df "Y" = some y)
    (hz : getCol df "Z" = some z)
    (hconst : ∀ e ∈ x, e = x.getD 0 0)
    (k : Nat) (hk : k * k = x.length) :
    plotData df = .plotted (reshape x k) (reshape y k) (reshape z k) := by
  have hx1 := getCol_length df "X" x hx
  have hy1 := getCol_length df "Y" y hy
  have hz1 := getCol_length df "Z" z hz
  have hks : intSqrt x.length = k := by rw [← hk]; exact intSqrt_mul_self k
  unfold plotData
  simp only [hx, hy, hz]
  rw [if_neg (by omega : ¬(x.length ≠ y.length ∨ y.length ≠ z.length))]
  rw [if_neg (show ¬(intSqrt x.length * intSqrt x.length ≠ x.length) from by
    rw [hks]; exact fun hne => hne hk), hks]

/-- Witness for claim C4 (amended) at the concrete all-same-x table
`sameX4`. -/
theorem C4_witness :
    plotData sameX4 = PlotResult.plotted
      (reshape [0, 0, 0, 0] 2) (reshape [0, 1, 2, 3] 2) (reshape [1, 2, 3, 4] 2) :=
  C4_no_degenerate_domain_gate sameX4 [0, 0, 0, 0] [0, 1, 2, 3] [1, 2, 3, 4]
    rfl rfl rfl (by decide) 2 rfl

/-- Claim C5: the minimum and maximum over the plotted x grid equal the
minimum and maximum of the input X column, and likewise for the y grid,
because the grids are reshapes of the columns: flattening a grid returns
its column exactly. -/
theorem C5_grid_bounds (df : DataFrame) (gx gy gz : List (List ℚ)) (x y : List ℚ)
    (h : plotData df = .plotted gx gy gz)
    (hx : getCol df "X" = some x) (hy : getCol df "Y" = some y) :
    gx.flatten.min? = x.min? ∧ gx.flatten.max? = x.max? ∧
    gy.flatten.min? = y.min? ∧ gy.flatten.max? = y.max? := by
  obtain ⟨x2, y2, z2, hx2, hy2, hz2, hxy, hyz, hsq, hgx, hgy, hgz⟩ := plotted_inv df gx gy gz h
  have hxx : x2 = x := Option.some.inj (hx2.symm.trans hx)
  have hyy : y2 = y := Option.some.inj (hy2.symm.trans hy)
  rw [hxx] at hsq hgx hgy hxy
  rw [hyy] at hgy hxy
  have hylen : y.length = intSqrt x.length * intSqrt x.length := by
    rw [← hxy]; exact hsq.symm
  have hfx : gx.flatten = x := by
    rw [hgx]; exact reshape_flatten x (intSqrt x.length) hsq.symm
  have hfy : gy.flatten = y := by
    rw [hgy]; exact reshape_flatten y (intSqrt x.length) hylen
  rw [hfx, hfy]
  exact ⟨rfl, rfl, rfl, rfl⟩

/-- Witness for claim C5 at the concrete table `ex9`. -/
theorem C5_witness :
    gx9.flatten.min? = xcol9.min? ∧ gx9.flatten.max? = xcol9.max? ∧
    gy9.flatten.min? = ycol9.min? ∧ gy9.flatten.max? = ycol9.max? :=
  C5_grid_bounds ex9 gx9 gy9 gz9 xcol9 ycol9 rfl rfl rfl

/-- Claim C6 is false of the code: a missing required column surfaces
through the single broad exception handler as the one generic error
outcome (`exceptionCaught`), not as a distinct MissingColumns kind; and
the claimed four-kind failure taxonomy does not exist in the result — an
empty input, for instance, is not a failure at all: it yields an (empty)
plotted grid, and a degenerate domain also plots (claim C4). -/
theorem C6_counterexample :
    plotData noX = .exceptionCaught "X" ∧
    plotData noZ = .exceptionCaught "Z" ∧
    plotData emptyXYZ = .plotted [] [] [] :=
  ⟨rfl, rfl, rfl⟩

/-- Claim C6 (amended): when any of the required columns X, Y, Z is
absent, `plot_data` ends in the generic catch-all error of the broad
exception handler — before any length check, square check or reshape —
carrying only the offending key inside one formatted message; the code
exposes no distinguishable failure kinds beyond its literal exits. -/
theorem C6_missing_column_generic_handler (df : DataFrame)
    (hmiss : getCol df "X" = none ∨ getCol df "Y" = none ∨ getCol df "Z" = none) :
    ∃ key, plotData df = .exceptionCaught key := by
  unfold plotData
  cases hX : getCol df "X" with
  | none => exact ⟨"X", rfl⟩
  | some x =>
    cases hY : getCol df "Y" with
    | none => exact ⟨"Y", rfl⟩
    | some y =>
      cases hZ : getCol df "Z" with
      | none => exact ⟨"Z", rfl⟩
      | some z =>
        rw [hX, hY, hZ] at hmiss
        rcases hmiss with h | h | h <;> simp at h

/-- Witness for claim C6 (amended) at the concrete table `noZ`. -/
theorem C6_witness : ∃ key, plotData noZ = PlotResult.exceptionCaught key :=
  C6_missing_column_generic_handler noZ (Or.inr (Or.inr rfl))

/-- Claim C7: the sample-to-grid transformation is deterministic and free
of side effects: `plotData` is a pure function, and its result depends
only on the extracted X, Y and Z columns — two tables with equal columns
yield identical results, run after run. Mutation of the input is not
representable here because the embedding, like the source (which only
rebinds local names), consumes the frame read-only. -/
theorem C7_pure_deterministic (df1 df2 : DataFrame)
    (hx : getCol df1 "X" = getCol df2 "X")
    (hy : getCol df1 "Y" = getCol df2 "Y")
    (hz : getCol df1 "Z" = getCol df2 "Z") :
    plotData df1 = plotData df2 := by
  unfold plotData
  rw [hx, hy, hz]

/-- Witness for claim C7: the table `ex9w` differs from `ex9` by an extra
unrelated column, yet both runs produce the identical result. -/
theorem C7_witness : plotData ex9 = plotData ex9w :=
  C7_pure_deterministic ex9 ex9w rfl rfl rfl

/-- Claim C8: entry `(i, j)` of each plotted grid equals exactly the
value of input row `i * k + j` (row-major, `k` the grid side length),
for the x, y and z grids alike: the program computes no new values
between or beyond the input samples. -/
theorem C8_grid_entries_are_input_rows (df : DataFrame) (gx gy gz : List (List ℚ))
    (x y z : List ℚ) (k : Nat)
    (h : plotData df = .plotted gx gy gz)
    (hx : getCol df "X" = some x) (hy : getCol df "Y" = some y)
    (hz : getCol df "Z" = some z)
    (hk : k * k = x.length) (i j : Nat) (hi : i < k) (hj : j < k) :
    (gx.getD i []).getD j 0 = x.getD (i * k + j) 0 ∧
    (gy.getD i []).getD j 0 = y.getD (i * k + j) 0 ∧
    (gz.getD i []).getD j 0 = z.getD (i * k + j) 0 := by
  obtain ⟨x2, y2, z2, hx2, hy2, hz2, hxy, hyz, hsq, hgx, hgy, hgz⟩ := plotted_inv df gx gy gz h
  have hxx : x2 = x := Option.some.inj (hx2.symm.trans hx)
  have hyy : y2 = y := Option.some.inj (hy2.symm.trans hy)
  have hzz : z2 = z := Option.some.inj (hz2.symm.trans hz)
  rw [hxx] at hsq hgx hgy hgz
  rw [hyy] at hgy
  rw [hzz] at hgz
  have hks : intSqrt x.length = k := by rw [← hk]; exact intSqrt_mul_self k
  rw [hgx, hgy, hgz, hks]
  exact ⟨reshape_entry x k i j hi hj, reshape_entry y k i j hi hj,
    reshape_entry z k i j hi hj⟩

/-- Witness for claim C8 at node `(1, 2)` of the grid built from `ex9`:
it carries input row 5. -/
theorem C8_witness :
    (gx9.getD 1 []).getD 2 0 = xcol9.getD (1 * 3 + 2) 0 ∧
    (gy9.getD 1 []).getD 2 0 = ycol9.getD (1 * 3 + 2) 0 ∧
    (gz9.getD 1 []).getD 2 0 = zcol9.getD (1 * 3 + 2) 0 :=
  C8_grid_entries_are_input_rows ex9 gx9 gy9 gz9 xcol9 ycol9 zcol9 3
    rfl rfl rfl rfl rfl 1 2 (by decide) (by decide)

/-- Claim C9: when the row count `n` fails `int(sqrt(n)) ** 2 == n` (not
a perfect square) the plot attempt ends in the not-a-square-grid warning
and no grid is constructed; when `n = k * k` a grid is produced with all
three arrays of shape `k x k`. -/
theorem C9_square_grid_gate (df : DataFrame) (x y z : List ℚ)
    (hx : getCol df "X" = some x) (hy : getCol df "Y" = some y)
    (hz : getCol df "Z" = some z) :
    (intSqrt df.rows.length * intSqrt df.rows.length ≠ df.rows.length →
      plotData df = .notSquareGrid) ∧
    (∀ k, df.rows.length = k * k →
      ∃ gx gy gz2, plotData df = .plotted gx gy gz2 ∧
        isSquareGrid gx k ∧ isSquareGrid gy k ∧ isSquareGrid gz2 k) := by
  have hx1 := getCol_length df "X" x hx
  have hy1 := getCol_length df "Y" y hy
  have hz1 := getCol_length df "Z" z hz
  constructor
  · intro hnot
    unfold plotData
    simp only [hx, hy, hz]
    rw [if_neg (by omega : ¬(x.length ≠ y.length ∨ y.length ≠ z.length))]
    rw [if_pos (by rw [hx1]; exact hnot)]
  · intro k hk
    have hks : intSqrt x.length = k := by rw [hx1, hk]; exact intSqrt_mul_self k
    refine ⟨reshape x k, reshape y k, reshape z k, ?_, ?_, ?_, ?_⟩
    · unfold plotData
      simp only [hx, hy, hz]
      rw [if_neg (by omega : ¬(x.length ≠ y.length ∨ y.length ≠ z.length))]
      rw [if_neg (by rw [hks, hx1, hk]; exact fun hne => hne rfl), hks]
    · exact ⟨reshape_length x k, fun r hr => reshape_row_length x k r hr⟩
    · exact ⟨reshape_length y k, fun r hr => reshape_row_length y k r hr⟩
    · exact ⟨reshape_length z k, fun r hr => reshape_row_length z k r hr⟩

/-- Witness for claim C9: the 2-row table is rejected with the square
warning, and the 9-row table `ex9` yields a 3 x 3 grid. -/
theorem C9_witness :
    plotData twoRows = PlotResult.notSquareGrid ∧
    (∃ gx gy gz2, plotData ex9 = PlotResult.plotted gx gy gz2 ∧
      isSquareGrid gx 3 ∧ isSquareGrid gy 3 ∧ isSquareGrid gz2 3) :=
  ⟨(C9_square_grid_gate twoRows [0, 1] [0, 1] [0, 1] rfl rfl rfl).1 (by decide),
   (C9_square_grid_gate ex9 xcol9 ycol9 zcol9 rfl rfl rfl).2 3 rfl⟩

/-- Claim C10: the length-mismatch warning is unreachable: the three
columns are extracted from one rectangular frame, so they always have
equal lengths and `plot_data` never returns the mismatch outcome. -/
theorem C10_length_mismatch_unreachable (df : DataFrame) : plotData df ≠ .lengthMismatch := by
  intro h
  unfold plotData at h
  split at h
  · simp at h
  · rename_i x hx
    split at h
    · simp at h
    · rename_i y hy
      split at h
      · simp at h
      · rename_i z hz
        split at h
        · rename_i hlen
          have hx1 := getCol_length df "X" x hx
          have hy1 := getCol_length df "Y" y hy
          have hz1 := getCol_length df "Z" z hz
          rcases hlen with h1 | h1 <;> omega
        · dsimp only [] at h
          split at h <;> simp at h


end SurfacePlot
